import Mathlib

/-!
Verification of the client-side raster image transform pipeline of the
Gemini-Multi-Tool repository (BillScanner rotation/brightness render,
ImageEditor contrast/saturation render, ImageGenerator text overlay,
and the bill-scan history persistence).

The source drives an HTML canvas: it sets `ctx.filter` strings
(`brightness(b)`, `contrast(c) saturate(s)`), applies geometric
transforms, and re-encodes the canvas.  The per-pixel semantics of
those filters is executed by the browser, not by code in the
repository, so the per-channel formulas below are modelled from the
specification's own formulas; the geometry, dimension arithmetic,
history list logic and control flow are translated directly from the
source.  Channels are modelled as exact rationals (the source computes
in floating point); rotation angles are restricted to multiples of 90
degrees, where the trigonometric values are exact integers.
-/

namespace GeminiMultiTool

/-- An RGBA pixel; channels are exact rationals standing for the 8-bit
sRGB channel values in [0,255]. -/
structure Pixel where
  r : ℚ
  g : ℚ
  b : ℚ
  a : ℚ
deriving DecidableEq

/-- A decoded raster image: integer dimensions and a pixel lookup. -/
structure Image where
  width : ℕ
  height : ℕ
  pixel : ℕ → ℕ → Pixel

/-- The RGB channels of a pixel lie in the 8-bit range [0,255]. -/
def ChannelsInRange (p : Pixel) : Prop :=
  0 ≤ p.r ∧ p.r ≤ 255 ∧ 0 ≤ p.g ∧ p.g ≤ 255 ∧ 0 ≤ p.b ∧ p.b ≤ 255

instance (p : Pixel) : Decidable (ChannelsInRange p) := by
  unfold ChannelsInRange; infer_instance

/-- Clamp a channel value to [0,255] (mandatory after every arithmetic
step, per the channel math of the transform pipeline). -/
def clamp255 (v : ℚ) : ℚ := max 0 (min 255 v)

/-- Modelled from the spec: the per-channel semantics of the canvas
`brightness(b)` filter set by `handleSaveChanges` in BillScanner.tsx
(the pixel math itself runs in the browser): each RGB channel is scaled
by the brightness factor and clamped to [0,255]; alpha is unaffected. -/
def brightnessChannel (factor v : ℚ) : ℚ := clamp255 (factor * v)

/-- Brightness applied to a whole pixel (alpha unaffected). -/
def brightnessPixel (factor : ℚ) (p : Pixel) : Pixel :=
  { r := brightnessChannel factor p.r
    g := brightnessChannel factor p.g
    b := brightnessChannel factor p.b
    a := p.a }

/-- Number of quarter turns encoded by a rotation in degrees
(`rad = rotation * PI / 180` in the source); meaningful when the
rotation is a multiple of 90, as produced by the ±90° buttons. -/
def quarterTurns (deg : ℤ) : ℕ := (deg % 360).toNat / 90

/-- Exact value of `Math.cos(deg * PI / 180)` for deg a multiple
of 90 (the source computes it in floating point). -/
def cosQ (deg : ℤ) : ℤ := [1, 0, -1, 0].getD (quarterTurns deg) 0

/-- Exact value of `Math.sin(deg * PI / 180)` for deg a multiple
of 90. -/
def sinQ (deg : ℤ) : ℤ := [0, 1, 0, -1].getD (quarterTurns deg) 0

/-- Output canvas width from BillScanner.tsx `handleSaveChanges`:
`newWidth = Math.abs(w * Math.cos(rad)) + Math.abs(h * Math.sin(rad))`. -/
def outWidth (deg : ℤ) (w h : ℕ) : ℕ :=
  ((w : ℤ) * cosQ deg).natAbs + ((h : ℤ) * sinQ deg).natAbs

/-- Output canvas height from BillScanner.tsx `handleSaveChanges`:
`newHeight = Math.abs(h * Math.cos(rad)) + Math.abs(w * Math.sin(rad))`. -/
def outHeight (deg : ℤ) (w h : ℕ) : ℕ :=
  ((h : ℤ) * cosQ deg).natAbs + ((w : ℤ) * sinQ deg).natAbs

/-- Sampling the source image through the canvas transform
`translate(center); rotate(rad); drawImage(img, -w/2, -h/2)` of
BillScanner.tsx, written as the induced index permutation for `k`
quarter turns. -/
def rotSample (img : Image) (k : ℕ) (x y : ℕ) : Pixel :=
  match k with
  | 1 => img.pixel y (img.height - 1 - x)
  | 2 => img.pixel (img.width - 1 - x) (img.height - 1 - y)
  | 3 => img.pixel (img.width - 1 - y) x
  | _ => img.pixel x y

/-- The BillScanner render (`handleSaveChanges`, BillScanner.tsx
lines 202-234): rotate about the center onto a bounding-box-sized
canvas with the brightness filter active. -/
def applyGeometricAndToneAdjustment (img : Image) (deg : ℤ) (bf : ℚ) : Image :=
  { width := outWidth deg img.width img.height
    height := outHeight deg img.width img.height
    pixel := fun x y => brightnessPixel bf (rotSample img (quarterTurns deg) x y) }

/-- The error taxonomy of the specification's error-handling design. -/
inductive RenderError where
  | invalidInput
  | outOfRange
  | decodeError
deriving DecidableEq

/-- Observable outcome of a render entry point: a produced image, a
silent early return (the source's bare `return;`), or a signalled
error.  The source has no error channel, so `err` is never produced
by the translated code. -/
inductive RenderOutcome where
  | ok (img : Image)
  | silentNoOp
  | err (e : RenderError)

/-- `handleSaveChanges` of BillScanner.tsx including its guard:
`if (!originalImage) return;` is a silent early return, otherwise the
rotation/brightness render is produced. -/
def handleSaveChangesScanner (originalImage : Option Image) (deg : ℤ) (bf : ℚ) :
    RenderOutcome :=
  match originalImage with
  | none => .silentNoOp
  | some img => .ok (applyGeometricAndToneAdjustment img deg bf)

/-- Modelled from the spec: per-channel semantics of the canvas
`contrast(c)` filter set by `handleSaveChanges` in the ImageEditor
component (the pixel math itself runs in the browser):
`out = (in - 128) * contrastFactor + 128`, clamped to [0,255]. -/
def contrastChannel (c v : ℚ) : ℚ := clamp255 ((v - 128) * c + 128)

/-- Contrast applied per RGB channel (alpha unaffected). -/
def contrastPixel (c : ℚ) (p : Pixel) : Pixel :=
  { r := contrastChannel c p.r
    g := contrastChannel c p.g
    b := contrastChannel c p.b
    a := p.a }

/-- Modelled from the spec: the per-pixel luminance-gray value used by
the `saturate(s)` filter (standard filter-effects luminance weights). -/
def luminance (p : Pixel) : ℚ := (213 * p.r + 715 * p.g + 72 * p.b) / 1000

/-- Modelled from the spec: per-channel semantics of the canvas
`saturate(s)` filter: `out = gray + (color - gray) * saturationFactor`,
clamped to [0,255], with `gray` the pixel's luminance. -/
def saturateChannel (s gray v : ℚ) : ℚ := clamp255 (gray + (v - gray) * s)

/-- Saturation applied to a whole pixel (alpha unaffected). -/
def saturatePixel (s : ℚ) (p : Pixel) : Pixel :=
  { r := saturateChannel s (luminance p) p.r
    g := saturateChannel s (luminance p) p.g
    b := saturateChannel s (luminance p) p.b
    a := p.a }

/-- Per-pixel effect of `ctx.filter = contrast(c) saturate(s)` in the
ImageEditor `handleSaveChanges` (src/unnamed/part_002 line 93): the
filter list applies left to right, so contrast first, then saturation
of the contrast-adjusted color. -/
def applyToneAdjustment (c s : ℚ) (p : Pixel) : Pixel :=
  saturatePixel s (contrastPixel c p)

/-- The ImageEditor render (`handleSaveChanges`, src/unnamed/part_002
lines 80-103): same dimensions as the source, tone filter applied to
every pixel. -/
def applyToneAdjustmentImage (img : Image) (c s : ℚ) : Image :=
  { width := img.width
    height := img.height
    pixel := fun x y => applyToneAdjustment c s (img.pixel x y) }

/-- `handleSaveChanges` of the ImageEditor including its guard:
`if (!originalImage) return;` is a silent early return. -/
def handleSaveChangesEditor (originalImage : Option Image) (c s : ℚ) :
    RenderOutcome :=
  match originalImage with
  | none => .silentNoOp
  | some img => .ok (applyToneAdjustmentImage img c s)

/-- Vertical anchor of the text overlay (`textPosition` state in the
ImageGenerator component, src/unnamed/part_001). -/
inductive VAnchor where
  | top
  | middle
  | bottom
deriving DecidableEq

/-- Canvas `textBaseline` values used by the overlay code. -/
inductive Baseline where
  | top
  | middle
  | bottom
deriving DecidableEq

/-- Parameters of the text overlay, from the ImageGenerator state
(`overlayText`, `fontFamily`, `fontSize`, `fontColor`, `strokeColor`,
`textPosition`). -/
structure TextOverlay where
  text : String
  fontFamily : String
  fontSizePx : ℚ
  fillColor : String
  strokeColor : String
  anchor : VAnchor
deriving DecidableEq

/-- Placement computed by the overlay effect (src/unnamed/part_001
lines 46-71): `x = canvas.width / 2`, `lineWidth = fontSize / 20`, and
the baseline/y pair from the `switch (textPosition)`. -/
structure TextPlacement where
  x : ℚ
  y : ℚ
  baseline : Baseline
  lineWidth : ℚ
deriving DecidableEq

/-- The placement the overlay effect computes for a `w × h` canvas. -/
def textPlacement (w h : ℚ) (o : TextOverlay) : TextPlacement :=
  { x := w / 2
    lineWidth := o.fontSizePx / 20
    baseline :=
      match o.anchor with
      | .top => .top
      | .bottom => .bottom
      | .middle => .middle
    y :=
      match o.anchor with
      | .top => o.fontSizePx
      | .bottom => h - o.fontSizePx
      | .middle => h / 2 }

/-- A text drawing command issued against the canvas after the source
image is drawn. -/
inductive DrawOp where
  | strokeText (text : String) (x y : ℚ)
  | fillText (text : String) (x y : ℚ)
deriving DecidableEq

/-- The guard `if (overlayText.trim())` of the overlay effect:
the trimmed text is falsy (empty) exactly when every character of the
text is whitespace. -/
def isBlank (s : String) : Bool := s.data.all (fun ch => ch.isWhitespace)

/-- The text draw commands of the overlay effect: nothing when the
trimmed text is empty (`if (overlayText.trim())`), otherwise
`strokeText` then `fillText` at the same point. -/
def overlayDrawOps (w h : ℚ) (o : TextOverlay) : List DrawOp :=
  if isBlank o.text then []
  else
    [.strokeText o.text (textPlacement w h o).x (textPlacement w h o).y,
     .fillText o.text (textPlacement w h o).x (textPlacement w h o).y]

/-- The canvas content produced by the overlay effect: the source
image drawn unscaled at the origin on a same-sized canvas, plus the
text draw commands applied on top.  `toDataURL` is a function of this
content, so two renders with equal content are byte-identical. -/
structure OverlayRender where
  base : Image
  ops : List DrawOp

/-- The ImageGenerator overlay effect (src/unnamed/part_001 lines
35-78) for a loaded source image. -/
def renderTextOverlay (img : Image) (o : TextOverlay) : OverlayRender :=
  { base := img
    ops := overlayDrawOps (img.width : ℚ) (img.height : ℚ) o }

/-- The render with no overlay at all: the canvas holds only the drawn
source image (the effect with the initial empty `overlayText`). -/
def renderNoOverlay (img : Image) : OverlayRender :=
  { base := img, ops := [] }

/-- A `number | string` union field of the bill data (types.ts). -/
inductive NumOrStr where
  | num (n : ℚ)
  | str (s : String)
deriving DecidableEq

/-- A line item of a scanned bill (types.ts `BillItem`), with the
optional per-field formatting flags. -/
structure BillItem where
  name : String
  quantity : NumOrStr
  price : NumOrStr
  nameBold : Option Bool := none
  nameItalic : Option Bool := none
  nameUnderline : Option Bool := none
  quantityBold : Option Bool := none
  quantityItalic : Option Bool := none
  quantityUnderline : Option Bool := none
  priceBold : Option Bool := none
  priceItalic : Option Bool := none
  priceUnderline : Option Bool := none
deriving DecidableEq

/-- Extracted structured bill data (types.ts `BillData`). -/
structure BillData where
  items : List BillItem
  total : NumOrStr
  totalBold : Option Bool := none
  totalItalic : Option Bool := none
  totalUnderline : Option Bool := none
deriving DecidableEq

/-- One persisted scan (types.ts `ScanHistoryItem`). -/
structure ScanHistoryItem where
  id : String
  imageDataUrl : String
  billData : BillData
  timestamp : ℕ
deriving DecidableEq

/-- The browser's local storage restricted to what this component
stores: a key-to-history-list map (JSON serialization abstracted as
the list itself, since `JSON.parse ∘ JSON.stringify` is the identity
on this data). -/
abbrev Storage := List (String × List ScanHistoryItem)

/-- `localStorage.setItem`: overwrite the value under a key. -/
def setItem (st : Storage) (k : String) (v : List ScanHistoryItem) : Storage :=
  (k, v) :: st.filter (fun p => p.fst ≠ k)

/-- `localStorage.removeItem`. -/
def removeItem (st : Storage) (k : String) : Storage :=
  st.filter (fun p => p.fst ≠ k)

/-- `localStorage.getItem`. -/
def getItem (st : Storage) (k : String) : Option (List ScanHistoryItem) :=
  (st.find? (fun p => p.fst = k)).map (fun p => p.snd)

/-- The storage key used by the BillScanner component. -/
def historyKey : String := "billScannerHistory"

/-- `scanMode` state of the BillScanner component. -/
inductive ScanMode where
  | bill
  | ocr
deriving DecidableEq

/-- The BillScanner component state touched by `handleScan` and
`handleClearHistory`, together with local storage. -/
structure ScannerState where
  image : Option String
  imageFile : Option String
  billData : Option BillData
  ocrText : Option String
  error : Option String
  history : List ScanHistoryItem
  scanMode : ScanMode
  selectedHistoryId : Option String
  storage : Storage

/-- `handleScan` (BillScanner.tsx lines 80-116).  The results of the
awaited service calls (`analyzeBill` / `extractTextFromImage`) enter
as parameters: `Except.ok` for a normal return, `Except.error` for a
thrown error message.  `nowIso`/`nowMs` stand for
`new Date().toISOString()` and `Date.now()`. -/
def handleScan (st : ScannerState) (nowIso : String) (nowMs : ℕ)
    (billResult : Except String BillData) (ocrResult : Except String String) :
    ScannerState :=
  match st.image, st.imageFile with
  | some img, some _file =>
    let st1 := { st with error := none, billData := none, ocrText := none,
                         selectedHistoryId := none }
    match st1.scanMode with
    | .bill =>
      match billResult with
      | .ok result =>
        let newItem : ScanHistoryItem :=
          { id := nowIso, imageDataUrl := img, billData := result, timestamp := nowMs }
        let updated := (newItem :: st1.history).take 10
        { st1 with billData := some result, history := updated,
                   storage := setItem st1.storage historyKey updated }
      | .error e => { st1 with error := some e }
    | .ocr =>
      match ocrResult with
      | .ok t => { st1 with ocrText := some t }
      | .error e => { st1 with error := some e }
  | _, _ => { st with error := some "Please upload an image first." }

/-- `handleClearHistory` (BillScanner.tsx lines 139-147), after the
animation timeout fires: clears the list and removes the storage key. -/
def handleClearHistory (st : ScannerState) : ScannerState :=
  if st.history.length = 0 then st
  else { st with history := [], storage := removeItem st.storage historyKey }

/-! ## Helper lemmas -/

theorem clamp255_nonneg (v : ℚ) : 0 ≤ clamp255 v := le_max_left _ _

theorem clamp255_le (v : ℚ) : clamp255 v ≤ 255 :=
  max_le (by norm_num) (min_le_left _ _)

theorem clamp255_eq_self {v : ℚ} (h0 : 0 ≤ v) (h255 : v ≤ 255) :
    clamp255 v = v := by
  unfold clamp255
  rw [min_eq_right h255, max_eq_right h0]

theorem clamp255_idem (v : ℚ) : clamp255 (clamp255 v) = clamp255 v :=
  clamp255_eq_self (clamp255_nonneg v) (clamp255_le v)

theorem brightnessPixel_one {p : Pixel} (h : ChannelsInRange p) :
    brightnessPixel 1 p = p := by
  obtain ⟨h1, h2, h3, h4, h5, h6⟩ := h
  cases p with
  | mk r g b a =>
    simp only [brightnessPixel, brightnessChannel, one_mul, Pixel.mk.injEq]
    exact ⟨clamp255_eq_self h1 h2, clamp255_eq_self h3 h4,
           clamp255_eq_self h5 h6, trivial⟩

/-- The bounding-box integer arithmetic agrees with the real-valued
ceiling formula of the specification (the value is an exact integer at
quarter-turn angles, so the ceiling is the value itself). -/
theorem dim_ceil (w h : ℕ) (cq sq : ℤ) :
    ((((w : ℤ) * cq).natAbs + ((h : ℤ) * sq).natAbs : ℕ) : ℤ) =
      ⌈(|(w : ℚ) * (cq : ℚ)| + |(h : ℚ) * (sq : ℚ)| : ℚ)⌉ := by
  have key : (|(w : ℚ) * (cq : ℚ)| + |(h : ℚ) * (sq : ℚ)| : ℚ) =
      (((((w : ℤ) * cq).natAbs + ((h : ℤ) * sq).natAbs : ℕ) : ℤ) : ℚ) := by
    push_cast [Int.cast_natAbs]
    rfl
  rw [key, Int.ceil_intCast]

/-! ## Claim theorems -/

/-- A sample concrete image used by witnesses. -/
def testImg : Image :=
  { width := 2, height := 3, pixel := fun _ _ => ⟨10, 20, 30, 255⟩ }

/-- C1: for every image, rendering with rotationDegrees = 0 and
brightnessFactor = 1.0 (no overlay) produces an output whose decoded
pixels are identical to the input's decoded pixels (same dimensions,
same pixel at every coordinate). -/
theorem C1_identity_render (img : Image) (x y : ℕ)
    (h : ChannelsInRange (img.pixel x y)) :
    (applyGeometricAndToneAdjustment img 0 1).width = img.width ∧
    (applyGeometricAndToneAdjustment img 0 1).height = img.height ∧
    (applyGeometricAndToneAdjustment img 0 1).pixel x y = img.pixel x y := by
  have hq : quarterTurns 0 = 0 := rfl
  refine ⟨?_, ?_, ?_⟩
  · show outWidth 0 img.width img.height = img.width
    simp [outWidth, cosQ, sinQ, hq]
  · show outHeight 0 img.width img.height = img.height
    simp [outHeight, cosQ, sinQ, hq]
  · show brightnessPixel 1 (rotSample img (quarterTurns 0) x y) = img.pixel x y
    rw [hq]
    exact brightnessPixel_one h

/-- Witness for C1 at a concrete image and coordinate. -/
theorem C1_identity_render_witness :
    (applyGeometricAndToneAdjustment testImg 0 1).pixel 0 0 = testImg.pixel 0 0 :=
  (C1_identity_render testImg 0 0 (by decide)).2.2

/-- C2: for every w×h source and every rotation that is a multiple of
90 (possibly negative), the output dimensions equal the ceiling of the
rotated bounding-box formula; rotation ≡ 90 (mod 360) yields h×w and
rotation ≡ 180 yields w×h. -/
theorem C2_rotation_dimensions (w h : ℕ) (deg : ℤ) (_hdeg : deg % 90 = 0) :
    (((outWidth deg w h : ℕ) : ℤ) =
        ⌈(|(w : ℚ) * (cosQ deg : ℚ)| + |(h : ℚ) * (sinQ deg : ℚ)| : ℚ)⌉ ∧
      ((outHeight deg w h : ℕ) : ℤ) =
        ⌈(|(h : ℚ) * (cosQ deg : ℚ)| + |(w : ℚ) * (sinQ deg : ℚ)| : ℚ)⌉) ∧
    (deg % 360 = 90 → outWidth deg w h = h ∧ outHeight deg w h = w) ∧
    (deg % 360 = 180 → outWidth deg w h = w ∧ outHeight deg w h = h) := by
  refine ⟨⟨dim_ceil w h _ _, dim_ceil h w _ _⟩, ?_, ?_⟩
  · intro hm
    have hq : quarterTurns deg = 1 := by unfold quarterTurns; rw [hm]; rfl
    have hc : cosQ deg = 0 := by unfold cosQ; rw [hq]; rfl
    have hs : sinQ deg = 1 := by unfold sinQ; rw [hq]; rfl
    constructor
    · simp [outWidth, hc, hs]
    · simp [outHeight, hc, hs]
  · intro hm
    have hq : quarterTurns deg = 2 := by unfold quarterTurns; rw [hm]; rfl
    have hc : cosQ deg = -1 := by unfold cosQ; rw [hq]; rfl
    have hs : sinQ deg = 0 := by unfold sinQ; rw [hq]; rfl
    constructor
    · simp [outWidth, hc, hs]
    · simp [outHeight, hc, hs]

/-- Witness for C2: the 100×200 image rotated by 90° becomes 200×100. -/
theorem C2_rotation_dimensions_witness :
    outWidth 90 100 200 = 200 ∧ outHeight 90 100 200 = 100 :=
  (C2_rotation_dimensions 100 200 90 (by decide)).2.1 (by decide)

/-- C3: the contrast step computes `out = (in - 128) * c + 128` per
channel, clamped to [0,255]; a solid mid-gray pixel with contrast 1.5
and saturation 1.0 stays mid-gray, and a channel of 255 with contrast
factor 2 remains ≤ 255 with no wraparound. -/
theorem C3_contrast_step (c v av : ℚ) :
    (0 ≤ contrastChannel c v ∧ contrastChannel c v ≤ 255) ∧
    (0 ≤ (v - 128) * c + 128 → (v - 128) * c + 128 ≤ 255 →
      contrastChannel c v = (v - 128) * c + 128) ∧
    applyToneAdjustment (3 / 2) 1 ⟨128, 128, 128, av⟩ = ⟨128, 128, 128, av⟩ ∧
    contrastChannel 2 255 = 255 := by
  refine ⟨⟨clamp255_nonneg _, clamp255_le _⟩,
          fun h0 h255 => clamp255_eq_self h0 h255, ?_, ?_⟩
  · show saturatePixel 1 (contrastPixel (3 / 2) ⟨128, 128, 128, av⟩) = _
    have hmid : contrastPixel (3 / 2) ⟨128, 128, 128, av⟩ = ⟨128, 128, 128, av⟩ := by
      simp only [contrastPixel, contrastChannel]
      norm_num [clamp255_eq_self]
    rw [hmid]
    simp only [saturatePixel, saturateChannel, luminance]
    norm_num [clamp255_eq_self]
  · show clamp255 ((255 - 128) * 2 + 128) = 255
    norm_num [clamp255]

/-- Witness for C3 at concrete values: contrast 1 on channel 100 is the
unclamped affine formula, and the scenario conjuncts hold. -/
theorem C3_contrast_step_witness :
    contrastChannel 1 100 = (100 - 128) * 1 + 128 ∧
    applyToneAdjustment (3 / 2) 1 ⟨128, 128, 128, 255⟩ = ⟨128, 128, 128, 255⟩ ∧
    contrastChannel 2 255 = 255 :=
  ⟨(C3_contrast_step 1 100 255).2.1 (by norm_num) (by norm_num),
   (C3_contrast_step 1 100 255).2.2.1, (C3_contrast_step 1 100 255).2.2.2⟩

/-- C4: the saturation step computes
`out = gray + (color - gray) * s` clamped to [0,255], where `gray` is
the luminance of the contrast-adjusted color; saturation 0 yields
R = G = B and saturation 1 is the identity relative to the contrast
step alone. -/
theorem C4_saturation_step (c s : ℚ) (p : Pixel) :
    applyToneAdjustment c s p = saturatePixel s (contrastPixel c p) ∧
    ((saturatePixel s p).r = clamp255 (luminance p + (p.r - luminance p) * s) ∧
     (saturatePixel s p).g = clamp255 (luminance p + (p.g - luminance p) * s) ∧
     (saturatePixel s p).b = clamp255 (luminance p + (p.b - luminance p) * s)) ∧
    ((applyToneAdjustment c 0 p).r = (applyToneAdjustment c 0 p).g ∧
     (applyToneAdjustment c 0 p).g = (applyToneAdjustment c 0 p).b) ∧
    applyToneAdjustment c 1 p = contrastPixel c p := by
  refine ⟨rfl, ⟨rfl, rfl, rfl⟩, ?_, ?_⟩
  · simp [applyToneAdjustment, saturatePixel, saturateChannel]
  · show saturatePixel 1 (contrastPixel c p) = contrastPixel c p
    have hone : ∀ gray v : ℚ, saturateChannel 1 gray v = clamp255 v := by
      intro gray v; unfold saturateChannel; ring_nf
    simp only [saturatePixel, hone, contrastPixel, contrastChannel, clamp255_idem]

/-- C5: the tone pipeline applies contrast before saturation, and the
two steps do not commute: on the pure-red pixel with contrast 2 and
saturation 0 the two orders give different results. -/
theorem C5_order_sensitivity :
    (∀ (c s : ℚ) (p : Pixel),
        applyToneAdjustment c s p = saturatePixel s (contrastPixel c p)) ∧
    saturatePixel 0 (contrastPixel 2 ⟨255, 0, 0, 255⟩) ≠
      contrastPixel 2 (saturatePixel 0 ⟨255, 0, 0, 255⟩) := by
  refine ⟨fun c s p => rfl, ?_⟩
  intro heq
  have hr := congrArg Pixel.r heq
  simp only [saturatePixel, contrastPixel, saturateChannel, contrastChannel,
             luminance, clamp255] at hr
  norm_num [min_def, max_def] at hr

/-- C6: an overlay whose text is empty or whitespace-only leaves the
canvas content equal to the input image with no draw commands, which
is exactly the no-overlay render. -/
theorem C6_empty_overlay_identity (img : Image) (o : TextOverlay)
    (h : isBlank o.text = true) :
    renderTextOverlay img o = renderNoOverlay img ∧
    (renderTextOverlay img o).base = img ∧
    (renderTextOverlay img o).ops = [] := by
  refine ⟨?_, rfl, ?_⟩ <;>
    simp [renderTextOverlay, renderNoOverlay, overlayDrawOps, h]

/-- Witness for C6 on a whitespace-only overlay text. -/
theorem C6_empty_overlay_identity_witness :
    renderTextOverlay testImg
        { text := "   ", fontFamily := "Impact", fontSizePx := 64,
          fillColor := "#FFFFFF", strokeColor := "#000000",
          anchor := VAnchor.middle } =
      renderNoOverlay testImg :=
  (C6_empty_overlay_identity testImg _ (by decide)).1

/-- C7: non-empty overlay text is horizontally centered at
`x = width / 2`, vertically placed per the anchor (top: baseline top,
`y = fontSizePx`; bottom: baseline bottom, `y = height - fontSizePx`;
middle: baseline middle, `y = height / 2`), and drawn as a stroke
followed by a fill at the same point with stroke width
`fontSizePx / 20`. -/
theorem C7_text_overlay_placement (w h : ℚ) (o : TextOverlay)
    (hne : isBlank o.text = false) :
    (textPlacement w h o).x = w / 2 ∧
    (textPlacement w h o).lineWidth = o.fontSizePx / 20 ∧
    ((textPlacement w h o).y =
      match o.anchor with
      | .top => o.fontSizePx
      | .bottom => h - o.fontSizePx
      | .middle => h / 2) ∧
    ((textPlacement w h o).baseline =
      match o.anchor with
      | .top => .top
      | .bottom => .bottom
      | .middle => .middle) ∧
    overlayDrawOps w h o =
      [DrawOp.strokeText o.text (textPlacement w h o).x (textPlacement w h o).y,
       DrawOp.fillText o.text (textPlacement w h o).x (textPlacement w h o).y] := by
  refine ⟨rfl, rfl, rfl, rfl, ?_⟩
  simp [overlayDrawOps, hne]

/-- Witness for C7: the "HI" / top / 64px scenario on a 500×500
canvas sits at y = 64, x = 250 with baseline top. -/
theorem C7_text_overlay_placement_witness :
    (textPlacement 500 500
        { text := "HI", fontFamily := "Impact", fontSizePx := 64,
          fillColor := "#FFFFFF", strokeColor := "#000000",
          anchor := VAnchor.top }).y = 64 ∧
    (textPlacement 500 500
        { text := "HI", fontFamily := "Impact", fontSizePx := 64,
          fillColor := "#FFFFFF", strokeColor := "#000000",
          anchor := VAnchor.top }).x = 250 ∧
    (textPlacement 500 500
        { text := "HI", fontFamily := "Impact", fontSizePx := 64,
          fillColor := "#FFFFFF", strokeColor := "#000000",
          anchor := VAnchor.top }).baseline = Baseline.top := by
  have t := C7_text_overlay_placement 500 500
    { text := "HI", fontFamily := "Impact", fontSizePx := 64,
      fillColor := "#FFFFFF", strokeColor := "#000000",
      anchor := VAnchor.top } (by decide)
  exact ⟨t.2.2.1.trans rfl, t.1.trans (by norm_num), t.2.2.2.1.trans rfl⟩

/-- C8 counterexample: with an absent source image (`originalImage`
null) both render entry points return silently; neither signals
`InvalidInputError`, so the claimed fail-fast behavior is false at
this concrete input. -/
theorem C8_counterexample :
    handleSaveChangesScanner none 0 1 = RenderOutcome.silentNoOp ∧
    handleSaveChangesScanner none 0 1 ≠
      RenderOutcome.err RenderError.invalidInput ∧
    handleSaveChangesEditor none 1 1 = RenderOutcome.silentNoOp ∧
    handleSaveChangesEditor none 1 1 ≠
      RenderOutcome.err RenderError.invalidInput :=
  ⟨rfl, fun hc => RenderOutcome.noConfusion hc, rfl,
   fun hc => RenderOutcome.noConfusion hc⟩

/-- C8 amended: for every call to a render operation with an absent
source image, the operation silently no-ops (returns without
producing an output image) and never signals any error. -/
theorem C8_amended_silent_noop (deg : ℤ) (bf c s : ℚ) :
    handleSaveChangesScanner none deg bf = RenderOutcome.silentNoOp ∧
    handleSaveChangesEditor none c s = RenderOutcome.silentNoOp ∧
    (∀ e : RenderError,
      handleSaveChangesScanner none deg bf ≠ RenderOutcome.err e) ∧
    (∀ e : RenderError,
      handleSaveChangesEditor none c s ≠ RenderOutcome.err e) :=
  ⟨rfl, rfl, fun _ hc => RenderOutcome.noConfusion hc,
   fun _ hc => RenderOutcome.noConfusion hc⟩

/-- Looking up the key just written by `setItem` yields the new value. -/
theorem getItem_setItem (st : Storage) (k : String) (v : List ScanHistoryItem) :
    getItem (setItem st k v) k = some v := by
  simp [getItem, setItem]

/-- After `removeItem` the key is absent. -/
theorem getItem_removeItem (st : Storage) (k : String) :
    getItem (removeItem st k) k = none := by
  unfold getItem removeItem
  induction st with
  | nil => rfl
  | cons hd tl ih =>
    by_cases hk : hd.fst = k
    · simpa [List.filter_cons, hk] using ih
    · simpa [List.filter_cons, hk, List.find?] using ih

/-- C9: after a successful bill-mode scan the persisted history under
the key "billScannerHistory" is exactly the in-memory list, equals the
new item prepended to the old list truncated to 10 entries, and has at
most 10 entries; the clear operation (the other history write) removes
the key. -/
theorem C9_history_capped (st : ScannerState) (iso img f : String) (ms : ℕ)
    (bd : BillData) (ores : Except String String)
    (himg : st.image = some img) (hfile : st.imageFile = some f)
    (hmode : st.scanMode = ScanMode.bill) :
    getItem (handleScan st iso ms (Except.ok bd) ores).storage historyKey =
      some (handleScan st iso ms (Except.ok bd) ores).history ∧
    (handleScan st iso ms (Except.ok bd) ores).history.length ≤ 10 ∧
    (handleScan st iso ms (Except.ok bd) ores).history =
      ({ id := iso, imageDataUrl := img, billData := bd, timestamp := ms }
        :: st.history).take 10 ∧
    (st.history.length ≠ 0 →
      getItem (handleClearHistory st).storage historyKey = none) := by
  have hscan : handleScan st iso ms (Except.ok bd) ores =
      { st with
          error := none
          ocrText := none
          selectedHistoryId := none
          billData := some bd
          history := List.take 10 ({ id := iso, imageDataUrl := img, billData := bd, timestamp := ms } :: st.history)
          storage := setItem st.storage historyKey (List.take 10 ({ id := iso, imageDataUrl := img, billData := bd, timestamp := ms } :: st.history)) } := by
    unfold handleScan
    rw [himg, hfile]
    simp [hmode]
  refine ⟨?_, ?_, ?_, ?_⟩
  · rw [hscan]
    exact getItem_setItem _ _ _
  · rw [hscan]
    simp only [List.length_take]
    exact min_le_left 10 _
  · rw [hscan]
  · intro hne
    unfold handleClearHistory
    simp only [hne, if_neg hne]
    exact getItem_removeItem _ _

/-- A sample bill used by the scanner witnesses. -/
def sampleBill : BillData :=
  { items := [{ name := "Tea", quantity := NumOrStr.num 1,
                price := NumOrStr.num 3 }],
    total := NumOrStr.num 3 }

/-- A sample scanner state with an uploaded image. -/
def sampleState : ScannerState :=
  { image := some "data:image/png;base64,QUFB"
    imageFile := some "image/png"
    billData := none
    ocrText := none
    error := none
    history := []
    scanMode := ScanMode.bill
    selectedHistoryId := none
    storage := [] }

/-- Witness for C9 on a concrete scan. -/
theorem C9_history_capped_witness :
    getItem (handleScan sampleState "t0" 5 (Except.ok sampleBill)
        (Except.ok "x")).storage historyKey =
      some (handleScan sampleState "t0" 5 (Except.ok sampleBill)
        (Except.ok "x")).history ∧
    (handleScan sampleState "t0" 5 (Except.ok sampleBill)
        (Except.ok "x")).history.length ≤ 10 :=
  ⟨(C9_history_capped sampleState "t0" "data:image/png;base64,QUFB"
      "image/png" 5 sampleBill (Except.ok "x") rfl rfl rfl).1,
   (C9_history_capped sampleState "t0" "data:image/png;base64,QUFB"
      "image/png" 5 sampleBill (Except.ok "x") rfl rfl rfl).2.1⟩

/-- C10: a scan performed in OCR mode never modifies the in-memory
history list or the persisted storage, whatever the service result and
whether or not an image is loaded. -/
theorem C10_ocr_scan_frame (st : ScannerState) (iso : String) (ms : ℕ)
    (bres : Except String BillData) (ores : Except String String)
    (hmode : st.scanMode = ScanMode.ocr) :
    (handleScan st iso ms bres ores).history = st.history ∧
    (handleScan st iso ms bres ores).storage = st.storage := by
  unfold handleScan
  cases st.image <;> cases st.imageFile <;> simp only [hmode] <;>
    cases ores <;> simp

/-- A sample scanner state in OCR mode. -/
def sampleOcrState : ScannerState :=
  { sampleState with scanMode := ScanMode.ocr }

/-- Witness for C10 on a concrete OCR scan. -/
theorem C10_ocr_scan_frame_witness :
    (handleScan sampleOcrState "t1" 7 (Except.ok sampleBill)
        (Except.ok "hello")).history = sampleOcrState.history ∧
    (handleScan sampleOcrState "t1" 7 (Except.ok sampleBill)
        (Except.ok "hello")).storage = sampleOcrState.storage :=
  C10_ocr_scan_frame sampleOcrState "t1" 7 (Except.ok sampleBill)
    (Except.ok "hello") rfl

end GeminiMultiTool
